import Mathlib

/-!
Shallow embedding of `ocr_dir.py` (repository `tsinglett/ocr-dir`), a batch
OCR driver: it loads a YAML configuration, recursively scans a directory for
PDF files, asks the operator for confirmation, and runs each file through a
containerized OCR tool.

The embedding models Python/YAML scalar values, the logging calls made by
each function, the filesystem as an inductive tree, and the external world
(file opens, the subprocess call) as explicit data so that each function of
the source becomes a pure Lean function.  Exceptions are modelled with
`Except` / `Option PyExc`.
-/

namespace OcrDir

/-- Python/YAML scalar values that can appear as configuration option values. -/
inductive Val where
  | str (s : String)
  | bool (b : Bool)
  | int (n : Int)
  | null
  deriving Repr, DecidableEq

/-- Python `str(value)` on a scalar value. -/
def pyStr : Val → String
  | .str s => s
  | .bool true => "True"
  | .bool false => "False"
  | .int n => toString n
  | .null => "None"

/-- Python truthiness (`if value:`) of a scalar value. -/
def truthy : Val → Bool
  | .str s => !s.isEmpty
  | .bool b => b
  | .int n => n != 0
  | .null => false

/-- Python `value > 0` on a scalar value.  For `int` and `bool` this follows
Python's numeric comparison (`True == 1`); comparing a `str` or `None` with
`0` raises `TypeError` in Python, a corner outside the modelled domain, where
this function returns `false`. -/
def valGtZero : Val → Bool
  | .int n => 0 < n
  | .bool b => b
  | _ => false

/-- One emitted log record: the level and the message of a `logger.*` call. -/
inductive LogEvent where
  | info (msg : String)
  | warning (msg : String)
  | error (msg : String)
  deriving Repr, DecidableEq

/-- Whether a log record was emitted at error level. -/
def LogEvent.isError : LogEvent → Bool
  | .error _ => true
  | _ => false

/-- The Python exception classes that the program can raise or catch. -/
inductive PyExc where
  | fileNotFound
  | calledProcessError (stderr : String)
  | yamlError (msg : String)
  | other (msg : String)
  deriving Repr, DecidableEq

/-- A named OCR profile: a YAML mapping from option names to values, in its
insertion (= iteration) order. -/
abbrev Profile := List (String × Val)

/-- The parsed configuration document: the keys the program reads.  The
`logging` section is omitted; it only configures the logger object. -/
structure Config where
  input_dir : String
  profiles : List (String × Profile)
  deriving Repr, DecidableEq

/-- Python `dict` lookup on an insertion-ordered association list. -/
def pyDictGet {α : Type} : List (String × α) → String → Option α
  | [], _ => none
  | kv :: rest, k => if kv.1 = k then some kv.2 else pyDictGet rest k

/-- Python `dict` assignment `d[k] = v` on an insertion-ordered association
list: an existing key keeps its position and gets the new value, a fresh key
is appended at the end. -/
def pyDictInsert {α : Type} : List (String × α) → String → α → List (String × α)
  | [], k, v => [(k, v)]
  | kv :: rest, k, v =>
    if kv.1 = k then (k, v) :: rest else kv :: pyDictInsert rest k v

/-- Python `os.path.join(d, p)` for the two-argument POSIX case the program
uses: an absolute second component replaces the first. -/
def joinPath (d p : String) : String :=
  if p.data.head? = some '/' then p else d ++ "/" ++ p

/-- The filesystem visible to `load_config`: the script's directory and, for
each path, whether it is a file and what parsing its contents yields
(`Except.error` = the file exists but `yaml.safe_load` raises `YAMLError`). -/
structure ConfigFS where
  scriptDir : String
  files : String → Option (Except String Config)

/-- Outcome of `yaml.safe_load` on an existing file. -/
def parseResult : Except String Config → Except PyExc Config
  | .ok c => .ok c
  | .error m => .error (.yamlError m)

/-- Embedding of `load_config` (`ocr_dir.py` lines 11-40): try the path as
given; if it is not a file, retry it joined to the script's directory; if
neither is a file raise `FileNotFoundError`; parse errors from `yaml`
propagate.  Both exception branches re-raise after printing. -/
def load_config (config_file : String) (fs : ConfigFS) : Except PyExc Config :=
  match fs.files config_file with
  | some r => parseResult r
  | none =>
    match fs.files (joinPath fs.scriptDir config_file) with
    | some r => parseResult r
    | none => .error .fileNotFound

/-- A directory tree: what `Path.iterdir` / `Path.rglob` traverse. -/
inductive FS where
  | file (name : String)
  | dir (name : String) (entries : List FS)

/-- The name of a directory entry. -/
def FS.entryName : FS → String
  | .file n => n
  | .dir n _ => n

/-- Whether a name matches the glob pattern `*.pdf` (fnmatch semantics: `*`
may match the empty string, matching is case-sensitive), i.e. whether the
name ends in `.pdf`. -/
def matchesPdf (n : String) : Bool := List.isSuffixOf ".pdf".data n.data

/-- Python `Path(name).stem` restricted to names matching `*.pdf`: the name
without its final `.pdf` suffix, except that a leading dot is not a suffix
separator (`Path(".pdf").stem == ".pdf"`). -/
def pyStem (n : String) : String :=
  if n = ".pdf" then n else n.dropRight 4

/-- Joining path components with `/`, the string form of a `Path`. -/
def joinPathComponents (p : List String) : String := String.intercalate "/" p

mutual
/-- All directories strictly below one entry, in `rglob`'s traversal order
(each directory before its own subdirectories, siblings in listed order),
paired with their entry lists.  Paths are component lists below some base. -/
def dirsOf (base : List String) : FS → List (List String × List FS)
  | .file _ => []
  | .dir n es => (base ++ [n], es) :: dirsOfList (base ++ [n]) es

/-- `dirsOf` over a list of sibling entries. -/
def dirsOfList (base : List String) : List FS → List (List String × List FS)
  | [] => []
  | e :: rest => dirsOf base e ++ dirsOfList base rest
end

/-- The entries of one directory whose names match `*.pdf`, as full paths, in
listed order.  Like Python's glob, a matching name is reported whether the
entry is a file or a directory. -/
def dirMatches (base : List String) (es : List FS) : List (List String) :=
  es.filterMap fun e =>
    if matchesPdf e.entryName then some (base ++ [e.entryName]) else none

/-- Embedding of `Path(directory).rglob('*.pdf')`: for the root directory and
every directory below it, in traversal order, the entries matching `*.pdf`. -/
def rglobPdf (base : List String) (es : List FS) : List (List String) :=
  (((base, es) :: dirsOfList base es).map fun d => dirMatches d.1 d.2).flatten

/-- One discovered PDF's descriptor (`ocr_dir.py` lines 138-144). -/
structure PdfInfo where
  name : String
  ocr_name : String
  sidecar : String
  path : List String
  ocr_path : List String
  deriving Repr, DecidableEq

/-- The descriptor built for one discovered path (`ocr_dir.py` lines
131-144): base name by `stem`, output name `<base>_ocr`, sidecar
`<base>.txt`, output path next to the source. -/
def mkPdfInfo (p : List String) : PdfInfo :=
  let file_name := pyStem (p.getLastD "")
  { name := file_name
    ocr_name := file_name ++ "_ocr"
    sidecar := file_name ++ ".txt"
    path := p
    ocr_path := p.dropLast ++ [file_name ++ "_ocr" ++ ".pdf"] }

/-- The accumulation loop of `search_dir` (`ocr_dir.py` lines 128-144): each
discovered path's descriptor is assigned into the dictionary under its base
name, in discovery order. -/
def scanFold (d : List (String × PdfInfo)) (paths : List (List String)) :
    List (String × PdfInfo) :=
  paths.foldl (fun d p => pyDictInsert d (mkPdfInfo p).name (mkPdfInfo p)) d

/-- Embedding of `search_dir` (`ocr_dir.py` lines 106-146).  The root is
`none` when `directory` does not exist, in which case `Path.iterdir` raises
`FileNotFoundError`; otherwise `some es` gives the root's entries.  Returns
the discovered mapping together with the emitted log records. -/
def search_dir (directory : List String) (root : Option (List FS)) :
    Except PyExc (List (String × PdfInfo) × List LogEvent) :=
  match root with
  | none => .error .fileNotFound
  | some es =>
    let logs0 := [LogEvent.info ("Begin searching directory: " ++ joinPathComponents directory)]
    if es.isEmpty then
      .ok ([], logs0 ++
        [LogEvent.warning ("Directory '" ++ joinPathComponents directory ++ "' is empty.")])
    else
      let paths := rglobPdf directory es
      .ok (scanFold [] paths,
        logs0 ++ paths.map fun p => LogEvent.info ("Found PDF: " ++ joinPathComponents p))

/-- Python `str.lower()` restricted to the ASCII case mapping; the program
only compares the result against ASCII literals. -/
def pyLower (s : String) : String := ⟨s.data.map Char.toLower⟩

/-- The decision and log records of one pass through the body of
`confirm_pdf_list`'s `while` loop for a given response string
(`ocr_dir.py` lines 165-176).  Every branch of the body returns. -/
def confirmBranch (response : String) : Bool × List LogEvent :=
  if pyLower response = "yes" || pyLower response = "y" then
    (true, [LogEvent.info ("Received " ++ response ++ " from user to continue")])
  else if pyLower response = "no" || pyLower response = "n" then
    (false, [LogEvent.info ("Received " ++ response ++ " from user to cancel")])
  else
    (false, [LogEvent.error "Received invalid user response to confirmation prompt"])

/-- Embedding of `confirm_pdf_list` (`ocr_dir.py` lines 148-176): prints the
list, then reads one response from the input stream and decides.  All three
branches of the loop body return, so only the first input is ever read; on an
exhausted input stream `input()` raises `EOFError`. -/
def confirm_pdf_list (pdf_list : List String) (inputs : List String) :
    Except PyExc (Bool × List LogEvent) :=
  match pdf_list, inputs with
  | _, [] => .error (.other "EOFError")
  | _, response :: _ =>
    let (b, logs) := confirmBranch response
    .ok (b, LogEvent.info "Confirming PDF list" :: logs)

/-- The fixed container-invocation command built before the profile's options
are appended (`ocr_dir.py` lines 197-216): hard-coded uid/gid 1000, workdir
`/data`, the resolved working directory bind-mounted to `/data`, and the
fixed image name. -/
def dockerCmdBase (working_dir : String) : List String :=
  ["docker", "run", "--rm", "-i", "--user", "1000:1000", "--workdir", "/data",
   "-v", working_dir ++ ":/data", "jbarlow83/ocrmypdf-alpine"]

/-- The option-to-flag table `ocrmypdf_args` (`ocr_dir.py` lines 219-233):
`none` for an unrecognized key, otherwise the function from the option's
value to the contributed tokens. -/
def ocrmypdfArgs (key : String) : Option (Val → List String) :=
  if key = "language" then some fun v => ["-l", pyStr v]
  else if key = "output_type" then some fun v => ["--output-type", pyStr v]
  else if key = "force_ocr" then some fun v => if truthy v then ["--force-ocr"] else []
  else if key = "deskew" then some fun v => if truthy v then ["--deskew"] else []
  else if key = "clean" then some fun v => if truthy v then ["--clean"] else []
  else if key = "clean_final" then some fun v => if truthy v then ["--clean-final"] else []
  else if key = "rotate_pages" then some fun v => if truthy v then ["--rotate-pages"] else []
  else if key = "rotate_pages_threshold" then
    some fun v => ["--rotate-pages-threshold", pyStr v]
  else if key = "remove_background" then
    some fun v => if truthy v then ["--remove-background"] else []
  else if key = "oversample" then some fun v => ["--oversample", pyStr v]
  else if key = "remove_vectors" then
    some fun v => if truthy v then ["--remove-vectors"] else []
  else if key = "jobs" then some fun v => if valGtZero v then ["-j", pyStr v] else []
  else if key = "pdf_renderer" then some fun v => ["--pdf-renderer", pyStr v]
  else none

/-- The tokens contributed by the profile's options, in the profile's
iteration order (`ocr_dir.py` lines 236-238): a recognized key with a
non-`None` value contributes its table entry, everything else nothing. -/
def profileArgs : Profile → List String
  | [] => []
  | (key, value) :: rest =>
    (match ocrmypdfArgs key with
     | some f => if value = Val.null then [] else f value
     | none => []) ++ profileArgs rest

/-- The complete command `process_pdf` runs (`ocr_dir.py` lines 203-241):
fixed base, the profile's tokens, then `['-', '-']` for stdin/stdout. -/
def buildDockerCmd (working_dir : String) (ocr_config : Profile) : List String :=
  dockerCmdBase working_dir ++ profileArgs ocr_config ++ ["-", "-"]

/-- Observable side effects of `process_pdf`'s execution phase, in program
order: opening the source for read, opening the destination for truncating
binary write, running the external process, `os.chmod`.  `removeFile` is in
the vocabulary so that its absence is expressible; the source never removes
a file. -/
inductive Effect where
  | openInput
  | openOutput
  | runProcess (cmd : List String)
  | chmod (path : String)
  | removeFile (path : String)
  deriving Repr, DecidableEq

/-- The external world one `process_pdf` call sees: the resolved working
directory, the exception (if any) raised by each `open`, the exception (if
any) raised by `subprocess.run` (`calledProcessError` = non-zero exit under
`check=True`), and the captured stderr text on success. -/
structure PdfWorld where
  working_dir : String
  openInputErr : Option PyExc
  openOutputErr : Option PyExc
  procErr : Option PyExc
  procStderr : String
  deriving Repr, DecidableEq

/-- What one `process_pdf` call did: the exception escaping it (if any), its
log records, and its side effects in order. -/
structure ProcOutcome where
  exc : Option PyExc
  logs : List LogEvent
  effects : List Effect
  deriving Repr, DecidableEq

/-- The `try` block of `process_pdf` (`ocr_dir.py` lines 247-263): open the
source, open the destination (creating/truncating it), run the process, then
chmod both files.  Returns either the first exception together with the
effects already performed, or the captured stderr and all effects. -/
def tryBlockResult (cmd : List String) (w : PdfWorld) (file_path ocr_path : String) :
    Except (PyExc × List Effect) (String × List Effect) :=
  match w.openInputErr with
  | some e => .error (e, [])
  | none =>
    match w.openOutputErr with
    | some e => .error (e, [.openInput])
    | none =>
      match w.procErr with
      | some e => .error (e, [.openInput, .openOutput, .runProcess cmd])
      | none =>
        .ok (w.procStderr,
          [.openInput, .openOutput, .runProcess cmd, .chmod file_path, .chmod ocr_path])

/-- Embedding of `process_pdf` (`ocr_dir.py` lines 178-268): resolve the
profile (logging an error and returning if absent), build the command, then
run the `try` block; `FileNotFoundError` and `CalledProcessError` are caught
and logged, any other exception escapes. -/
def process_pdf (pdf : PdfInfo) (config : Config) (profile : String) (w : PdfWorld) :
    ProcOutcome :=
  match pyDictGet config.profiles profile with
  | none =>
    { exc := none
      logs := [LogEvent.error ("Configuration profile '" ++ profile ++ "' not found.")]
      effects := [] }
  | some ocr_config =>
    let docker_cmd := buildDockerCmd w.working_dir ocr_config
    let file_path := joinPathComponents pdf.path
    let ocr_path := joinPathComponents pdf.ocr_path
    let logs0 := [LogEvent.info ("Working directory: " ++ w.working_dir),
                  LogEvent.info ("Docker command: " ++ String.intercalate " " docker_cmd)]
    match tryBlockResult docker_cmd w file_path ocr_path with
    | .ok (stderrText, effs) =>
      { exc := none, logs := logs0 ++ [LogEvent.info stderrText], effects := effs }
    | .error (.fileNotFound, effs) =>
      { exc := none
        logs := logs0 ++ [LogEvent.error ("Input file not found: " ++ file_path)]
        effects := effs }
    | .error (.calledProcessError stderrText, effs) =>
      { exc := none
        logs := logs0 ++
          [LogEvent.error ("OCR process failed for " ++ file_path ++ ": " ++ stderrText)]
        effects := effs }
    | .error (e, effs) => { exc := some e, logs := logs0, effects := effs }

/-- The confirmed-batch loop of `main` (`ocr_dir.py` lines 293-295): process
each descriptor in order; an exception escaping `process_pdf` aborts the run. -/
def runBatch (config : Config) (profile : String) (worldOf : String → PdfWorld) :
    List (String × PdfInfo) → Except PyExc (List LogEvent)
  | [] => .ok []
  | (name, pdf) :: rest =>
    let o := process_pdf pdf config profile (worldOf name)
    match o.exc with
    | some e => .error e
    | none =>
      match runBatch config profile worldOf rest with
      | .error e => .error e
      | .ok ls => .ok (LogEvent.info ("Processing PDF: " ++ pdf.name) :: o.logs ++ ls)

/-- Embedding of the flow of `main` after configuration and logging are set
up (`ocr_dir.py` lines 282-297): scan, confirm, and if confirmed run the
batch.  Exceptions from `search_dir`, `input()` and `process_pdf` are not
caught anywhere here and escape. -/
def mainRun (start_path : List String) (config : Config) (profile : String)
    (root : Option (List FS)) (inputs : List String) (worldOf : String → PdfWorld) :
    Except PyExc (List LogEvent) :=
  match search_dir start_path root with
  | .error e => .error e
  | .ok (pdf_list, searchLogs) =>
    match confirm_pdf_list (pdf_list.map fun kv => kv.1) inputs with
    | .error e => .error e
    | .ok (true, confirmLogs) =>
      match runBatch config profile worldOf pdf_list with
      | .error e => .error e
      | .ok batchLogs =>
        .ok (searchLogs ++ confirmLogs ++ [LogEvent.info "User confirmed PDF list"] ++ batchLogs)
    | .ok (false, confirmLogs) =>
      .ok (searchLogs ++ confirmLogs ++ [LogEvent.info "User did not confirm PDF list"])

/-! Definitions written from the specification's words, for comparison with
the embedding above. -/

/-- The option names of the specification's recognized option set (§4.4). -/
def recognizedKeys : List String :=
  ["language", "output_type", "force_ocr", "deskew", "clean", "clean_final",
   "rotate_pages", "rotate_pages_threshold", "remove_background", "oversample",
   "remove_vectors", "jobs", "pdf_renderer"]

/-- The specification's option-to-flag table (§4.4), read as a function from
one option to its contributed tokens: a null value or an unmapped key
contributes nothing, boolean flags appear only when the value is true (in
Python's sense), numeric values are coerced with `str`, and `jobs`
contributes only when its value is positive. -/
def specFlagTokens (key : String) (v : Val) : List String :=
  if v = Val.null then []
  else if key = "language" then ["-l", pyStr v]
  else if key = "output_type" then ["--output-type", pyStr v]
  else if key = "force_ocr" then if truthy v then ["--force-ocr"] else []
  else if key = "deskew" then if truthy v then ["--deskew"] else []
  else if key = "clean" then if truthy v then ["--clean"] else []
  else if key = "clean_final" then if truthy v then ["--clean-final"] else []
  else if key = "rotate_pages" then if truthy v then ["--rotate-pages"] else []
  else if key = "rotate_pages_threshold" then ["--rotate-pages-threshold", pyStr v]
  else if key = "remove_background" then if truthy v then ["--remove-background"] else []
  else if key = "oversample" then ["--oversample", pyStr v]
  else if key = "remove_vectors" then if truthy v then ["--remove-vectors"] else []
  else if key = "jobs" then if valGtZero v then ["-j", pyStr v] else []
  else if key = "pdf_renderer" then ["--pdf-renderer", pyStr v]
  else []

mutual
/-- Number of plain files in one entry's subtree whose names match `*.pdf`:
the "N matching files" of the specification's scanning property (§8). -/
def countPdfEntry : FS → Nat
  | .file n => if matchesPdf n then 1 else 0
  | .dir _ es => countPdfEntries es

/-- `countPdfEntry` summed over a list of sibling entries. -/
def countPdfEntries : List FS → Nat
  | [] => 0
  | e :: rest => countPdfEntry e + countPdfEntries rest
end

mutual
/-- No directory anywhere in this entry's subtree has a name matching
`*.pdf` (such a directory would itself be globbed). -/
def noPdfDirEntry : FS → Bool
  | .file _ => true
  | .dir n es => !matchesPdf n && noPdfDirEntries es

/-- `noPdfDirEntry` over a list of sibling entries. -/
def noPdfDirEntries : List FS → Bool
  | [] => true
  | e :: rest => noPdfDirEntry e && noPdfDirEntries rest
end

/-- The exception classes `process_pdf`'s handlers catch (`ocr_dir.py` lines
265-268): `FileNotFoundError` and `subprocess.CalledProcessError`. -/
def caughtExc : PyExc → Bool
  | .fileNotFound => true
  | .calledProcessError _ => true
  | _ => false

/-- The first exception the `try` block of `process_pdf` raises for a given
world, if any: the input open, then the output open, then the subprocess. -/
def firstRaised (w : PdfWorld) : Option PyExc :=
  (w.openInputErr.or w.openOutputErr).or w.procErr

/-! Helper lemmas about the dictionary model and the scan fold. -/

theorem pyDictGet_insert {α : Type} (d : List (String × α)) (k k' : String) (v : α) :
    pyDictGet (pyDictInsert d k v) k' = if k' = k then some v else pyDictGet d k' := by
  induction d with
  | nil =>
    simp only [pyDictInsert, pyDictGet]
    by_cases h : k' = k
    · rw [if_pos h.symm, if_pos h]
    · rw [if_neg (fun h' => h h'.symm), if_neg h]
  | cons kv rest ih =>
    simp only [pyDictInsert]
    by_cases h1 : kv.1 = k
    · rw [if_pos h1]
      simp only [pyDictGet]
      by_cases h2 : k' = k
      · rw [if_pos h2.symm, if_pos h2]
      · rw [if_neg (fun h' => h2 h'.symm), if_neg h2,
          if_neg (fun h' : kv.1 = k' => h2 (h'.symm.trans h1))]
    · rw [if_neg h1]
      simp only [pyDictGet, ih]
      by_cases h2 : kv.1 = k'
      · rw [if_pos h2, if_neg (fun h' : k' = k => h1 (h2.trans h')), if_pos h2]
      · rw [if_neg h2]
        by_cases h3 : k' = k
        · rw [if_pos h3, if_pos h3]
        · rw [if_neg h3, if_neg h3, if_neg h2]

theorem pyDictInsert_fresh {α : Type} (d : List (String × α)) (k : String) (v : α)
    (h : k ∉ d.map Prod.fst) : pyDictInsert d k v = d ++ [(k, v)] := by
  induction d with
  | nil => rfl
  | cons kv rest ih =>
    simp only [List.map_cons, List.mem_cons] at h
    push_neg at h
    simp only [pyDictInsert]
    rw [if_neg (fun h' => h.1 h'.symm), ih h.2]
    rfl

theorem keys_pyDictInsert {α : Type} (d : List (String × α)) (k : String) (v : α) :
    (pyDictInsert d k v).map Prod.fst =
      if k ∈ d.map Prod.fst then d.map Prod.fst else d.map Prod.fst ++ [k] := by
  induction d with
  | nil => rfl
  | cons kv rest ih =>
    simp only [pyDictInsert, List.map_cons]
    by_cases h1 : kv.1 = k
    · rw [if_pos h1]
      have hm : k ∈ kv.1 :: rest.map Prod.fst := h1 ▸ List.mem_cons_self _ _
      rw [if_pos hm, List.map_cons, h1]
    · rw [if_neg h1, List.map_cons, ih]
      by_cases h2 : k ∈ rest.map Prod.fst
      · have hm : k ∈ kv.1 :: rest.map Prod.fst := List.mem_cons_of_mem _ h2
        rw [if_pos h2, if_pos hm]
      · have hm : k ∉ kv.1 :: rest.map Prod.fst := by
          simp only [List.mem_cons]
          push_neg
          exact ⟨fun h' => h1 h'.symm, h2⟩
        rw [if_neg h2, if_neg hm]
        rfl

theorem mem_keys_pyDictInsert {α : Type} (d : List (String × α)) (k k' : String) (v : α) :
    k' ∈ (pyDictInsert d k v).map Prod.fst ↔ k' ∈ d.map Prod.fst ∨ k' = k := by
  rw [keys_pyDictInsert]
  by_cases h : k ∈ d.map Prod.fst
  · rw [if_pos h]
    constructor
    · exact Or.inl
    · rintro (hm | rfl)
      · exact hm
      · exact h
  · rw [if_neg h]
    simp

theorem nodup_keys_pyDictInsert {α : Type} (d : List (String × α)) (k : String) (v : α)
    (h : (d.map Prod.fst).Nodup) : ((pyDictInsert d k v).map Prod.fst).Nodup := by
  rw [keys_pyDictInsert]
  by_cases h' : k ∈ d.map Prod.fst
  · rw [if_pos h']
    exact h
  · rw [if_neg h']
    simp [List.nodup_append, h, h']

theorem find?_eq_head?_filter {α : Type} (q : α → Bool) (l : List α) :
    l.find? q = (l.filter q).head? := by
  induction l with
  | nil => rfl
  | cons a t ih =>
    by_cases h : q a
    · rw [List.find?_cons_of_pos _ h, List.filter_cons_of_pos h, List.head?_cons]
    · rw [List.find?_cons_of_neg _ h, List.filter_cons_of_neg h, ih]

theorem find?_reverse_eq_getLast?_filter {α : Type} (q : α → Bool) (l : List α) :
    l.reverse.find? q = (l.filter q).getLast? := by
  rw [List.getLast?_eq_head?_reverse, ← List.filter_reverse, find?_eq_head?_filter]

theorem scanFold_nil (d : List (String × PdfInfo)) : scanFold d [] = d := rfl

theorem scanFold_cons (d : List (String × PdfInfo)) (p : List String)
    (rest : List (List String)) :
    scanFold d (p :: rest) = scanFold (pyDictInsert d (mkPdfInfo p).name (mkPdfInfo p)) rest :=
  rfl

theorem pyDictGet_scanFold (paths : List (List String)) (d : List (String × PdfInfo))
    (s : String) :
    pyDictGet (scanFold d paths) s =
      match paths.reverse.find? (fun p => (mkPdfInfo p).name == s) with
      | some p => some (mkPdfInfo p)
      | none => pyDictGet d s := by
  induction paths generalizing d with
  | nil => rfl
  | cons p rest ih =>
    rw [scanFold_cons, ih]
    rw [List.reverse_cons, List.find?_append]
    cases hfind : rest.reverse.find? (fun p => (mkPdfInfo p).name == s) with
    | some q => rfl
    | none =>
      rw [Option.none_or]
      by_cases h : (mkPdfInfo p).name = s
      · rw [List.find?_cons_of_pos _ (by simpa using h)]
        rw [pyDictGet_insert, if_pos h.symm]
      · rw [List.find?_cons_of_neg _ (by simpa using h), List.find?_nil]
        rw [pyDictGet_insert, if_neg (fun h' => h h'.symm)]

theorem mem_keys_scanFold (paths : List (List String)) (d : List (String × PdfInfo))
    (s : String) :
    s ∈ (scanFold d paths).map Prod.fst ↔
      s ∈ d.map Prod.fst ∨ ∃ p ∈ paths, (mkPdfInfo p).name = s := by
  induction paths generalizing d with
  | nil => simp [scanFold_nil]
  | cons p rest ih =>
    rw [scanFold_cons, ih]
    simp only [mem_keys_pyDictInsert, List.mem_cons]
    constructor
    · rintro ((hd | hs) | hrest)
      · exact Or.inl hd
      · exact Or.inr ⟨p, Or.inl rfl, hs.symm⟩
      · obtain ⟨q, hq, hqs⟩ := hrest
        exact Or.inr ⟨q, Or.inr hq, hqs⟩
    · rintro (hd | ⟨q, (rfl | hq), hqs⟩)
      · exact Or.inl (Or.inl hd)
      · exact Or.inl (Or.inr hqs.symm)
      · exact Or.inr ⟨q, hq, hqs⟩

theorem nodup_keys_scanFold (paths : List (List String)) (d : List (String × PdfInfo))
    (h : (d.map Prod.fst).Nodup) : ((scanFold d paths).map Prod.fst).Nodup := by
  induction paths generalizing d with
  | nil => exact h
  | cons p rest ih => exact ih _ (nodup_keys_pyDictInsert _ _ _ h)

theorem scanFold_of_nodup (paths : List (List String)) :
    ∀ d : List (String × PdfInfo),
      (paths.map fun p => (mkPdfInfo p).name).Nodup →
      (∀ p ∈ paths, (mkPdfInfo p).name ∉ d.map Prod.fst) →
      scanFold d paths = d ++ paths.map fun p => ((mkPdfInfo p).name, mkPdfInfo p) := by
  induction paths with
  | nil =>
    intro d _ _
    simp [scanFold_nil]
  | cons p rest ih =>
    intro d h1 h2
    simp only [List.map_cons, List.nodup_cons] at h1
    rw [scanFold_cons, pyDictInsert_fresh d _ _ (h2 p (List.mem_cons_self _ _))]
    rw [ih (d ++ [((mkPdfInfo p).name, mkPdfInfo p)]) h1.2 ?fresh]
    · simp
    case fresh =>
      intro q hq
      rw [List.map_append, List.mem_append]
      rintro (hA | hB)
      · exact h2 q (List.mem_cons_of_mem _ hq) hA
      · have hname : (mkPdfInfo q).name = (mkPdfInfo p).name := by simpa using hB
        exact h1.1 (hname ▸ List.mem_map_of_mem (fun p => (mkPdfInfo p).name) hq)

/-- Total number of glob matches contributed by a list of directories. -/
def dirsMatchLen (ds : List (List String × List FS)) : Nat :=
  (ds.map fun d => (dirMatches d.1 d.2).length).sum

theorem dirsMatchLen_append (a b : List (List String × List FS)) :
    dirsMatchLen (a ++ b) = dirsMatchLen a + dirsMatchLen b := by
  simp [dirsMatchLen]

theorem dirsMatchLen_cons (x : List String × List FS) (xs : List (List String × List FS)) :
    dirsMatchLen (x :: xs) = (dirMatches x.1 x.2).length + dirsMatchLen xs := by
  simp [dirsMatchLen]

theorem dirMatches_cons (base : List String) (e : FS) (rest : List FS) :
    dirMatches base (e :: rest) = dirMatches base [e] ++ dirMatches base rest := by
  simp only [dirMatches, List.filterMap_cons, List.filterMap_nil]
  by_cases h : matchesPdf e.entryName <;> simp [h]

mutual
theorem matchLen_entry (e : FS) (base : List String) (h : noPdfDirEntry e = true) :
    (dirMatches base [e]).length + dirsMatchLen (dirsOf base e) = countPdfEntry e := by
  cases e with
  | file n =>
    by_cases hm : matchesPdf n <;>
      simp [dirMatches, dirsOf, dirsMatchLen, countPdfEntry, FS.entryName, hm]
  | dir n es =>
    simp only [noPdfDirEntry, Bool.and_eq_true, Bool.not_eq_true'] at h
    have hrec := matchLen_entries es (base ++ [n]) h.2
    have hm : dirMatches base [FS.dir n es] = [] := by
      simp [dirMatches, FS.entryName, h.1]
    rw [hm, List.length_nil]
    simp only [dirsOf, dirsMatchLen_cons, countPdfEntry]
    omega

theorem matchLen_entries (es : List FS) (base : List String) (h : noPdfDirEntries es = true) :
    (dirMatches base es).length + dirsMatchLen (dirsOfList base es) = countPdfEntries es := by
  cases es with
  | nil => simp [dirMatches, dirsOfList, dirsMatchLen, countPdfEntries]
  | cons e rest =>
    simp only [noPdfDirEntries, Bool.and_eq_true] at h
    have h1 := matchLen_entry e base h.1
    have h2 := matchLen_entries rest base h.2
    rw [dirMatches_cons, dirsOfList, dirsMatchLen_append, List.length_append, countPdfEntries]
    omega
end

theorem rglobPdf_length (base : List String) (es : List FS)
    (h : noPdfDirEntries es = true) :
    (rglobPdf base es).length = countPdfEntries es := by
  rw [rglobPdf, List.length_flatten, List.map_map, List.map_cons, List.sum_cons]
  simpa [dirsMatchLen, Function.comp] using matchLen_entries es base h

theorem flagTokens_pointwise (k : String) (v : Val) :
    (match ocrmypdfArgs k with
     | some f => if v = Val.null then [] else f v
     | none => []) = specFlagTokens k v := by
  by_cases hv : v = Val.null
  · subst hv
    simp only [specFlagTokens, if_pos rfl]
    cases ocrmypdfArgs k <;> simp
  · by_cases h1 : k = "language"
    · simp [ocrmypdfArgs, specFlagTokens, hv, h1]
    by_cases h2 : k = "output_type"
    · simp [ocrmypdfArgs, specFlagTokens, hv, h1, h2]
    by_cases h3 : k = "force_ocr"
    · simp [ocrmypdfArgs, specFlagTokens, hv, h1, h2, h3]
    by_cases h4 : k = "deskew"
    · simp [ocrmypdfArgs, specFlagTokens, hv, h1, h2, h3, h4]
    by_cases h5 : k = "clean"
    · simp [ocrmypdfArgs, specFlagTokens, hv, h1, h2, h3, h4, h5]
    by_cases h6 : k = "clean_final"
    · simp [ocrmypdfArgs, specFlagTokens, hv, h1, h2, h3, h4, h5, h6]
    by_cases h7 : k = "rotate_pages"
    · simp [ocrmypdfArgs, specFlagTokens, hv, h1, h2, h3, h4, h5, h6, h7]
    by_cases h8 : k = "rotate_pages_threshold"
    · simp [ocrmypdfArgs, specFlagTokens, hv, h1, h2, h3, h4, h5, h6, h7, h8]
    by_cases h9 : k = "remove_background"
    · simp [ocrmypdfArgs, specFlagTokens, hv, h1, h2, h3, h4, h5, h6, h7, h8, h9]
    by_cases h10 : k = "oversample"
    · simp [ocrmypdfArgs, specFlagTokens, hv, h1, h2, h3, h4, h5, h6, h7, h8, h9, h10]
    by_cases h11 : k = "remove_vectors"
    · simp [ocrmypdfArgs, specFlagTokens, hv, h1, h2, h3, h4, h5, h6, h7, h8, h9, h10, h11]
    by_cases h12 : k = "jobs"
    · simp [ocrmypdfArgs, specFlagTokens, hv, h1, h2, h3, h4, h5, h6, h7, h8, h9, h10, h11, h12]
    by_cases h13 : k = "pdf_renderer"
    · simp [ocrmypdfArgs, specFlagTokens, hv, h1, h2, h3, h4, h5, h6, h7, h8, h9, h10, h11,
        h12, h13]
    simp [ocrmypdfArgs, specFlagTokens, hv, h1, h2, h3, h4, h5, h6, h7, h8, h9, h10, h11,
      h12, h13]

theorem profileArgs_eq_spec (p : Profile) :
    profileArgs p = (p.map fun kv => specFlagTokens kv.1 kv.2).flatten := by
  induction p with
  | nil => rfl
  | cons kv rest ih =>
    simp only [profileArgs, List.map_cons, List.flatten_cons, ih]
    rw [flagTokens_pointwise]

/-! The claims. -/

/-- C6: for every configuration document and profile name absent from the
document's profiles mapping, `process_pdf` logs exactly one error naming the
missing profile and returns without constructing a command, performing any
external invocation, or raising: its whole outcome is that single error log,
no side effects, no exception. -/
theorem process_pdf_missing_profile (pdf : PdfInfo) (config : Config) (profile : String)
    (w : PdfWorld) (h : pyDictGet config.profiles profile = none) :
    process_pdf pdf config profile w =
      { exc := none
        logs := [LogEvent.error ("Configuration profile '" ++ profile ++ "' not found.")]
        effects := [] } := by
  simp [process_pdf, h]

/-- Witness for C6 at a concrete configuration and absent profile name. -/
theorem process_pdf_missing_profile_witness :
    process_pdf (mkPdfInfo ["in", "a.pdf"])
        ⟨"in", [("default", [("output_type", Val.str "pdf")])]⟩ "missing"
        ⟨"/wd", none, none, none, ""⟩ =
      { exc := none
        logs := [LogEvent.error ("Configuration profile '" ++ "missing" ++ "' not found.")]
        effects := [] } :=
  process_pdf_missing_profile _ _ _ _ (by decide)

/-- C7: for every file descriptor whose source path does not exist (the
input `open` raises `FileNotFoundError`), `process_pdf` logs exactly one
error message containing the literal source path, performs no write to the
destination path (no effect at all), and returns without raising. -/
theorem process_pdf_missing_input (pdf : PdfInfo) (config : Config) (profile : String)
    (w : PdfWorld) (prof : Profile)
    (hp : pyDictGet config.profiles profile = some prof)
    (hi : w.openInputErr = some PyExc.fileNotFound) :
    (process_pdf pdf config profile w).exc = none ∧
    (process_pdf pdf config profile w).logs.filter LogEvent.isError =
      [LogEvent.error ("Input file not found: " ++ joinPathComponents pdf.path)] ∧
    (process_pdf pdf config profile w).effects = [] := by
  simp [process_pdf, hp, tryBlockResult, hi, LogEvent.isError]

/-- Witness for C7 at a concrete descriptor whose source open fails. -/
theorem process_pdf_missing_input_witness :
    (process_pdf (mkPdfInfo ["in", "a.pdf"])
        ⟨"in", [("default", [("output_type", Val.str "pdf")])]⟩ "default"
        ⟨"/wd", some PyExc.fileNotFound, none, none, ""⟩).exc = none ∧
    (process_pdf (mkPdfInfo ["in", "a.pdf"])
        ⟨"in", [("default", [("output_type", Val.str "pdf")])]⟩ "default"
        ⟨"/wd", some PyExc.fileNotFound, none, none, ""⟩).logs.filter LogEvent.isError =
      [LogEvent.error ("Input file not found: " ++
        joinPathComponents (mkPdfInfo ["in", "a.pdf"]).path)] ∧
    (process_pdf (mkPdfInfo ["in", "a.pdf"])
        ⟨"in", [("default", [("output_type", Val.str "pdf")])]⟩ "default"
        ⟨"/wd", some PyExc.fileNotFound, none, none, ""⟩).effects = [] :=
  process_pdf_missing_input _ _ _ _ [("output_type", Val.str "pdf")] (by decide) rfl

/-- C9: for every file descriptor whose source exists, `process_pdf` opens
the destination for truncating binary write before the external process
runs; when the process exits non-zero the performed effects are exactly the
input open, the destination open, and the process run — in that order — so
the destination file was created or truncated, and no effect removes or
restores it; the error is caught and logged with the source path and the
captured stderr. -/
theorem process_pdf_nonzero_exit (pdf : PdfInfo) (config : Config) (profile : String)
    (w : PdfWorld) (prof : Profile) (s : String)
    (hp : pyDictGet config.profiles profile = some prof)
    (hi : w.openInputErr = none) (ho : w.openOutputErr = none)
    (hr : w.procErr = some (PyExc.calledProcessError s)) :
    (process_pdf pdf config profile w).effects =
      [Effect.openInput, Effect.openOutput,
       Effect.runProcess (buildDockerCmd w.working_dir prof)] ∧
    (process_pdf pdf config profile w).exc = none ∧
    (∀ p, Effect.removeFile p ∉ (process_pdf pdf config profile w).effects) ∧
    (process_pdf pdf config profile w).logs.filter LogEvent.isError =
      [LogEvent.error ("OCR process failed for " ++ joinPathComponents pdf.path ++ ": " ++ s)] := by
  simp [process_pdf, hp, tryBlockResult, hi, ho, hr, LogEvent.isError]

/-- Witness for C9 at a concrete descriptor and a failing external process. -/
theorem process_pdf_nonzero_exit_witness :
    (process_pdf (mkPdfInfo ["in", "a.pdf"])
        ⟨"in", [("default", [("output_type", Val.str "pdf")])]⟩ "default"
        ⟨"/wd", none, none, some (PyExc.calledProcessError "boom"), ""⟩).effects =
      [Effect.openInput, Effect.openOutput,
       Effect.runProcess (buildDockerCmd "/wd" [("output_type", Val.str "pdf")])] ∧
    (process_pdf (mkPdfInfo ["in", "a.pdf"])
        ⟨"in", [("default", [("output_type", Val.str "pdf")])]⟩ "default"
        ⟨"/wd", none, none, some (PyExc.calledProcessError "boom"), ""⟩).exc = none ∧
    (∀ p, Effect.removeFile p ∉
      (process_pdf (mkPdfInfo ["in", "a.pdf"])
        ⟨"in", [("default", [("output_type", Val.str "pdf")])]⟩ "default"
        ⟨"/wd", none, none, some (PyExc.calledProcessError "boom"), ""⟩).effects) ∧
    (process_pdf (mkPdfInfo ["in", "a.pdf"])
        ⟨"in", [("default", [("output_type", Val.str "pdf")])]⟩ "default"
        ⟨"/wd", none, none, some (PyExc.calledProcessError "boom"), ""⟩).logs.filter
        LogEvent.isError =
      [LogEvent.error ("OCR process failed for " ++
        joinPathComponents (mkPdfInfo ["in", "a.pdf"]).path ++ ": " ++ "boom")] :=
  process_pdf_nonzero_exit _ _ _ _ [("output_type", Val.str "pdf")] "boom" (by decide) rfl rfl rfl

/-- C1 counterexample: `process_pdf` does raise past its boundary on a
failure mode outside the two handled exception classes — here the
destination `open` raising a `PermissionError` (an unwritable destination
path) escapes the function. -/
theorem process_pdf_raises_counterexample :
    (process_pdf (mkPdfInfo ["in", "a.pdf"])
        ⟨"in", [("default", [("output_type", Val.str "pdf")])]⟩ "default"
        ⟨"/wd", none, some (PyExc.other "PermissionError"), none, ""⟩).exc ≠ none := by
  decide

/-- C1 amended: the exception escaping `process_pdf` is fully characterized:
none when the profile is missing (that failure is logged instead), none when
the first exception of the execution phase (if any) is one of the two caught
classes (`FileNotFoundError`, `CalledProcessError`), and exactly that first
exception otherwise — so the two enumerated failure modes are contained, and
any other exception class propagates past the boundary. -/
theorem process_pdf_exception_boundary (pdf : PdfInfo) (config : Config) (profile : String)
    (w : PdfWorld) :
    (process_pdf pdf config profile w).exc =
      match pyDictGet config.profiles profile with
      | none => none
      | some _ =>
        match firstRaised w with
        | none => none
        | some e => if caughtExc e then none else some e := by
  cases hp : pyDictGet config.profiles profile with
  | none => simp [process_pdf, hp]
  | some prof =>
    cases hi : w.openInputErr with
    | some e =>
      cases e <;> simp [process_pdf, hp, tryBlockResult, hi, firstRaised, caughtExc, Option.or]
    | none =>
      cases ho : w.openOutputErr with
      | some e =>
        cases e <;>
          simp [process_pdf, hp, tryBlockResult, hi, ho, firstRaised, caughtExc, Option.or]
      | none =>
        cases hr : w.procErr with
        | some e =>
          cases e <;>
            simp [process_pdf, hp, tryBlockResult, hi, ho, hr, firstRaised, caughtExc, Option.or]
        | none =>
          simp [process_pdf, hp, tryBlockResult, hi, ho, hr, firstRaised, caughtExc, Option.or]

/-- C2: for every profile drawn from the recognized option set, the command
`process_pdf` builds is the fixed container prefix, then the tokens of the
specification's option-to-flag table applied in the profile's iteration
order, then `['-', '-']`; in particular the profile with only
`output_type: pdf` yields the prefix, `--output-type pdf`, and `['-','-']`. -/
theorem process_pdf_command_construction (working_dir : String) (p : Profile)
    (hrec : ∀ kv ∈ p, kv.1 ∈ recognizedKeys) :
    buildDockerCmd working_dir p =
      dockerCmdBase working_dir ++
        (p.map fun kv => specFlagTokens kv.1 kv.2).flatten ++ ["-", "-"] ∧
    buildDockerCmd working_dir [("output_type", Val.str "pdf")] =
      dockerCmdBase working_dir ++ ["--output-type", "pdf", "-", "-"] := by
  refine ⟨?_, ?_⟩
  · rw [buildDockerCmd, profileArgs_eq_spec]
  · simp [buildDockerCmd, profileArgs, ocrmypdfArgs, pyStr, dockerCmdBase]

/-- Witness for C2 at a concrete working directory and profile. -/
theorem process_pdf_command_construction_witness :
    buildDockerCmd "/wd" [("language", Val.str "eng"), ("jobs", Val.int 2)] =
      dockerCmdBase "/wd" ++
        ([("language", Val.str "eng"), ("jobs", Val.int 2)].map
          fun kv => specFlagTokens kv.1 kv.2).flatten ++ ["-", "-"] ∧
    buildDockerCmd "/wd" [("output_type", Val.str "pdf")] =
      dockerCmdBase "/wd" ++ ["--output-type", "pdf", "-", "-"] :=
  process_pdf_command_construction "/wd" [("language", Val.str "eng"), ("jobs", Val.int 2)]
    (by decide)

/-- C3: for every single user input, `confirm_pdf_list` returns affirmative
for inputs whose lowercasing is `yes` or `y`, negative for `no` or `n`, and
negative for anything else on the first invalid entry; the result never
depends on any further queued input, so the prompt never re-asks. -/
theorem confirm_pdf_list_first_response (pdfs : List String) (response : String)
    (rest : List String) :
    ((pyLower response = "yes" ∨ pyLower response = "y") →
      confirm_pdf_list pdfs (response :: rest) =
        .ok (true, [LogEvent.info "Confirming PDF list",
          LogEvent.info ("Received " ++ response ++ " from user to continue")])) ∧
    ((pyLower response = "no" ∨ pyLower response = "n") →
      confirm_pdf_list pdfs (response :: rest) =
        .ok (false, [LogEvent.info "Confirming PDF list",
          LogEvent.info ("Received " ++ response ++ " from user to cancel")])) ∧
    (pyLower response ≠ "yes" → pyLower response ≠ "y" → pyLower response ≠ "no" →
      pyLower response ≠ "n" →
      confirm_pdf_list pdfs (response :: rest) =
        .ok (false, [LogEvent.info "Confirming PDF list",
          LogEvent.error "Received invalid user response to confirmation prompt"])) ∧
    confirm_pdf_list pdfs (response :: rest) = confirm_pdf_list pdfs [response] := by
  refine ⟨?_, ?_, ?_, rfl⟩
  · rintro (h | h) <;> simp [confirm_pdf_list, confirmBranch, h]
  · rintro (h | h) <;> simp [confirm_pdf_list, confirmBranch, h]
  · intro h1 h2 h3 h4
    simp [confirm_pdf_list, confirmBranch, h1, h2, h3, h4]

/-- Witness for C3: one affirmative, one negative and one invalid concrete
response, each with queued further input that is never consumed. -/
theorem confirm_pdf_list_first_response_witness :
    confirm_pdf_list [] ["YES", "n"] =
      .ok (true, [LogEvent.info "Confirming PDF list",
        LogEvent.info ("Received " ++ "YES" ++ " from user to continue")]) ∧
    confirm_pdf_list [] ["No"] =
      .ok (false, [LogEvent.info "Confirming PDF list",
        LogEvent.info ("Received " ++ "No" ++ " from user to cancel")]) ∧
    confirm_pdf_list [] ["maybe", "y"] =
      .ok (false, [LogEvent.info "Confirming PDF list",
        LogEvent.error "Received invalid user response to confirmation prompt"]) :=
  ⟨(confirm_pdf_list_first_response [] "YES" ["n"]).1 (Or.inl (by decide)),
   (confirm_pdf_list_first_response [] "No" []).2.1 (Or.inl (by decide)),
   (confirm_pdf_list_first_response [] "maybe" ["y"]).2.2.1
     (by decide) (by decide) (by decide) (by decide)⟩

/-- C8: `load_config` first checks the path as given; if it is not a file it
retries the same path joined to the program's own directory; if neither
location is a file it raises a file-not-found error, and a file that is not
well-formed YAML raises a parse error; both errors are returned to the
caller, not swallowed. -/
theorem load_config_resolution (fs : ConfigFS) (path : String) :
    (∀ r, fs.files path = some r → load_config path fs = parseResult r) ∧
    (fs.files path = none →
      ∀ r, fs.files (joinPath fs.scriptDir path) = some r →
        load_config path fs = parseResult r) ∧
    (fs.files path = none → fs.files (joinPath fs.scriptDir path) = none →
      load_config path fs = .error PyExc.fileNotFound) ∧
    (∀ m, fs.files path = some (.error m) →
      load_config path fs = .error (PyExc.yamlError m)) := by
  refine ⟨?_, ?_, ?_, ?_⟩
  · intro r h
    simp [load_config, h]
  · intro h1 r h2
    simp [load_config, h1, h2]
  · intro h1 h2
    simp [load_config, h1, h2]
  · intro m h
    simp [load_config, h, parseResult]

/-- Witness for C8 at a concrete filesystem: the config exists only next to
the script, so the given path misses and the script-relative retry hits. -/
theorem load_config_resolution_witness :
    load_config "config.yaml"
        ⟨"/app", fun p => if p = "/app/config.yaml"
          then some (Except.ok ⟨"in", []⟩) else none⟩ =
      parseResult (Except.ok ⟨"in", []⟩) :=
  (load_config_resolution
      ⟨"/app", fun p => if p = "/app/config.yaml"
        then some (Except.ok ⟨"in", []⟩) else none⟩ "config.yaml").2.1
    rfl (Except.ok ⟨"in", []⟩) rfl

/-- C10: for every root path that does not exist, the emptiness check of
`search_dir` (`Path.iterdir`) raises `FileNotFoundError` rather than
warning, and the exception is caught nowhere in the program: the whole
`main` flow fails with it. -/
theorem search_dir_nonexistent_root_raises :
    (∀ directory : List String, search_dir directory none = .error PyExc.fileNotFound) ∧
    (∀ (start_path : List String) (config : Config) (profile : String)
        (inputs : List String) (worldOf : String → PdfWorld),
      mainRun start_path config profile none inputs worldOf =
        .error PyExc.fileNotFound) :=
  ⟨fun _ => rfl, fun _ _ _ _ _ => rfl⟩

/-- C4 counterexample: a root holding `sub1/a.pdf` and `sub2/a.pdf` has two
matching files but `search_dir` returns a single descriptor (the two base
names collide), so "N matching files give exactly N descriptors" fails as a
universal statement. -/
theorem search_dir_duplicate_stems_counterexample :
    countPdfEntries [FS.dir "sub1" [FS.file "a.pdf"], FS.dir "sub2" [FS.file "a.pdf"]] = 2 ∧
    search_dir ["root"]
        (some [FS.dir "sub1" [FS.file "a.pdf"], FS.dir "sub2" [FS.file "a.pdf"]]) =
      .ok ([("a", mkPdfInfo ["root", "sub2", "a.pdf"])],
        [LogEvent.info "Begin searching directory: root",
         LogEvent.info "Found PDF: root/sub1/a.pdf",
         LogEvent.info "Found PDF: root/sub2/a.pdf"]) ∧
    ([("a", mkPdfInfo ["root", "sub2", "a.pdf"])] : List (String × PdfInfo)).length ≠
      countPdfEntries [FS.dir "sub1" [FS.file "a.pdf"], FS.dir "sub2" [FS.file "a.pdf"]] := by
  refine ⟨by decide, rfl, by decide⟩

/-- C4 as amended: a root with zero entries warns and returns the empty
mapping; and a root whose matched paths have pairwise distinct base names
and no directory named like a PDF yields exactly one descriptor per matching
file, keyed by base name, with output name `base + "_ocr"` and sidecar name
`base + ".txt"`. -/
theorem search_dir_scan_results :
    (∀ directory : List String, search_dir directory (some []) =
      .ok ([], [LogEvent.info ("Begin searching directory: " ++ joinPathComponents directory),
        LogEvent.warning ("Directory '" ++ joinPathComponents directory ++ "' is empty.")])) ∧
    (∀ (directory : List String) (es : List FS) (m : List (String × PdfInfo))
        (logs : List LogEvent),
      ((rglobPdf directory es).map fun p => (mkPdfInfo p).name).Nodup →
      noPdfDirEntries es = true →
      search_dir directory (some es) = .ok (m, logs) →
      m.length = countPdfEntries es ∧
      ∀ kv ∈ m, kv.1 = kv.2.name ∧ kv.2.ocr_name = kv.2.name ++ "_ocr" ∧
        kv.2.sidecar = kv.2.name ++ ".txt") := by
  constructor
  · intro directory
    rfl
  · intro directory es m logs hnd hnopdf hsearch
    by_cases he : es.isEmpty
    · have hes : es = [] := List.isEmpty_iff.mp he
      subst hes
      simp only [search_dir] at hsearch
      rw [if_pos (show ([] : List FS).isEmpty = true from rfl)] at hsearch
      simp only [Except.ok.injEq, Prod.mk.injEq] at hsearch
      refine ⟨?_, ?_⟩
      · rw [← hsearch.1]
        rfl
      · intro kv hkv
        rw [← hsearch.1] at hkv
        cases hkv
    · simp only [search_dir] at hsearch
      rw [if_neg he] at hsearch
      simp only [Except.ok.injEq, Prod.mk.injEq] at hsearch
      have hm : m = (rglobPdf directory es).map fun p => ((mkPdfInfo p).name, mkPdfInfo p) := by
        rw [← hsearch.1, scanFold_of_nodup _ [] hnd (by simp)]
        simp
      refine ⟨?_, ?_⟩
      · rw [hm, List.length_map, rglobPdf_length _ _ hnopdf]
      · intro kv hkv
        rw [hm] at hkv
        obtain ⟨p, _, rfl⟩ := List.mem_map.mp hkv
        exact ⟨rfl, rfl, rfl⟩

/-- Witness for C4 at a concrete root holding a top-level PDF and one in a
subdirectory: two matching files, two descriptors of the documented shape. -/
theorem search_dir_scan_results_witness :
    (scanFold [] (rglobPdf ["root"] [FS.file "x.pdf", FS.dir "sub" [FS.file "y.pdf"]])).length =
      countPdfEntries [FS.file "x.pdf", FS.dir "sub" [FS.file "y.pdf"]] :=
  (search_dir_scan_results.2 ["root"] [FS.file "x.pdf", FS.dir "sub" [FS.file "y.pdf"]]
    _ _ (by decide) (by decide) rfl).1

/-- C5: whenever several matched paths share one base name, the returned
mapping holds exactly one entry under that base name, and its descriptor is
the one built from the path discovered last — each later discovery silently
overwrites the earlier one. -/
theorem search_dir_last_discovery_wins (directory : List String) (es : List FS)
    (s : String) (m : List (String × PdfInfo)) (logs : List LogEvent)
    (hsearch : search_dir directory (some es) = .ok (m, logs))
    (hdup : 2 ≤ ((rglobPdf directory es).filter fun p => (mkPdfInfo p).name == s).length) :
    (m.map Prod.fst).count s = 1 ∧
    pyDictGet m s =
      (((rglobPdf directory es).filter fun p => (mkPdfInfo p).name == s).getLast?).map
        mkPdfInfo := by
  by_cases he : es.isEmpty
  · exfalso
    have hes : es = [] := List.isEmpty_iff.mp he
    subst hes
    simp [rglobPdf, dirsOfList, dirMatches] at hdup
  · simp only [search_dir] at hsearch
    rw [if_neg he] at hsearch
    simp only [Except.ok.injEq, Prod.mk.injEq] at hsearch
    have hm : m = scanFold [] (rglobPdf directory es) := hsearch.1.symm
    have hex : ∃ p ∈ rglobPdf directory es, (mkPdfInfo p).name = s := by
      have hne : (rglobPdf directory es).filter (fun p => (mkPdfInfo p).name == s) ≠ [] := by
        intro h0
        rw [h0] at hdup
        simp at hdup
      obtain ⟨x, hx⟩ := List.exists_mem_of_ne_nil _ hne
      have hx' := List.mem_filter.mp hx
      exact ⟨x, hx'.1, by simpa using hx'.2⟩
    constructor
    · apply List.count_eq_one_of_mem
      · rw [hm]
        exact nodup_keys_scanFold _ [] (by simp)
      · rw [hm]
        exact (mem_keys_scanFold _ [] s).mpr (Or.inr hex)
    · rw [hm, pyDictGet_scanFold, find?_reverse_eq_getLast?_filter]
      cases hlast : ((rglobPdf directory es).filter fun p => (mkPdfInfo p).name == s).getLast?
        with
      | some p => simp
      | none => simp [pyDictGet]

/-- Witness for C5 at the concrete root holding `sub1/a.pdf` and
`sub2/a.pdf`: one entry under `a`, holding the descriptor of the later
discovery `sub2/a.pdf`. -/
theorem search_dir_last_discovery_wins_witness :
    ((scanFold [] (rglobPdf ["root"] [FS.dir "sub1" [FS.file "a.pdf"],
        FS.dir "sub2" [FS.file "a.pdf"]])).map Prod.fst).count "a" = 1 ∧
    pyDictGet (scanFold [] (rglobPdf ["root"] [FS.dir "sub1" [FS.file "a.pdf"],
        FS.dir "sub2" [FS.file "a.pdf"]])) "a" =
      (((rglobPdf ["root"] [FS.dir "sub1" [FS.file "a.pdf"],
        FS.dir "sub2" [FS.file "a.pdf"]]).filter
          fun p => (mkPdfInfo p).name == "a").getLast?).map mkPdfInfo :=
  search_dir_last_discovery_wins ["root"]
    [FS.dir "sub1" [FS.file "a.pdf"], FS.dir "sub2" [FS.file "a.pdf"]] "a" _ _ rfl (by decide)

end OcrDir
